import Mathlib

/-!
Verification of the `prompter` package (src/prompter.go), a terminal
prompting helper.  The Go code is shallowly embedded: regexps are embedded
by their matching semantics on the concrete patterns the code compiles,
`strconv.Atoi` is embedded with its sign/digits/64-bit-range behaviour, and
the recursive `Prompt()` loop is embedded as a fuel-indexed function over a
list of input lines, returning the accepted answer together with the number
of read attempts it performed.
-/

namespace PrompterGo

/-- A compiled Go regexp, embedded as its source text together with the
semantics of `MatchString` (which in Go is an unanchored substring search). -/
structure GoRegexp where
  source : String
  matchString : String → Bool

/-- Semantics of `MatchString` for `allReg = .*`: matches every string
(the empty substring match always succeeds). -/
def allRegMatch (_ : String) : Bool := true

/-- True when the character is an ASCII digit `0`-`9`. -/
def isAsciiDigit (c : Char) : Bool := '0' ≤ c && c ≤ '9'

/-- True when some two consecutive characters of the list are ASCII digits. -/
def hasTwoConsecDigits : List Char → Bool
  | c₁ :: c₂ :: rest => (isAsciiDigit c₁ && isAsciiDigit c₂) || hasTwoConsecDigits (c₂ :: rest)
  | _ => false

/-- Semantics of `MatchString` for `numReg`, the pattern
digits-twice-or-more alternated with one nonzero digit (see `numReg.source`).
The Go pattern is unanchored, so it matches a string iff some substring of
two or more consecutive ASCII digits occurs, or some single character
`1`-`9` occurs. -/
def numRegMatch (s : String) : Bool :=
  s.data.any (fun c => '1' ≤ c && c ≤ '9') || hasTwoConsecDigits s.data

/-- Embeds `var allReg = regexp.MustCompile(".*")`. -/
def allReg : GoRegexp := { source := ".*", matchString := allRegMatch }

/-- Embeds `var numReg = regexp.MustCompile("[0-9]\x7b2,\x7d|[1-9]\x7b1\x7d")`. -/
def numReg : GoRegexp :=
  { source := "[0-9]\x7b2,\x7d|[1-9]\x7b1\x7d", matchString := numRegMatch }

/-- The characters Go's `regexp.QuoteMeta` escapes. -/
def isRegexpSpecial (c : Char) : Bool :=
  ['\\', '.', '+', '*', '?', '(', ')', '|', '[', ']',
    Char.ofNat 123, Char.ofNat 125, '^', '$'].contains c

/-- Go `regexp.QuoteMeta`: backslash-escape every regexp metacharacter. -/
def quoteMeta (s : String) : String :=
  String.mk (s.data.foldr
    (fun c acc => if isRegexpSpecial c then '\\' :: c :: acc else c :: acc) [])

/-- Character-wise lowercasing, modelling the case folding of `(?i)` in the
choice-derived pattern `(?i)?\A(?:q1|...|qn)\z` (each `qi` a
`QuoteMeta`-escaped choice; the choices this package is used with are
ASCII). -/
def strFold (s : String) : String := String.mk (s.data.map Char.toLower)

/-- Whole-string comparison against the choice set, case-folded when the
pattern carries `(?i)`. -/
def choiceMatch (ignoreCase : Bool) (choices : List String) (s : String) : Bool :=
  choices.any (fun c => if ignoreCase then strFold c == strFold s else c == s)

/-- Go `strconv.Atoi`: optional leading sign, then one or more ASCII digits,
value must fit in a signed 64-bit integer; every other input is an error
(`none`). -/
def Atoi (s : String) : Option Int :=
  let ds : List Char :=
    match s.data with
    | '+' :: t => t
    | '-' :: t => t
    | t => t
  let neg : Bool :=
    match s.data with
    | '-' :: _ => true
    | _ => false
  if ds.isEmpty then none
  else if ds.all isAsciiDigit then
    let n : Nat := ds.foldl (fun a c => a * 10 + (c.toNat - 48)) 0
    if neg then
      if n ≤ 2 ^ 63 then some (-(n : Int)) else none
    else
      if n ≤ 2 ^ 63 - 1 then some (n : Int) else none
  else none

/-- The `Prompter` struct.  `reg`, the lazily cached compiled rule, is not a
field here: caching a pure value is semantically transparent, so the rule is
recomputed by `regexpRule` below. -/
structure Prompter where
  Message : String := ""
  Choices : List String := []
  IgnoreCase : Bool := false
  Default : String := ""
  DefaultMenuItem : Int := 0
  Regexp : Option GoRegexp := none
  NoEcho : Bool := false
  UseDefault : Bool := false
  IsMenu : Bool := false
  MenuPrompt : String := ""

/-- Embeds `func (p *Prompter) regexp() *regexp.Regexp` — the validation rule:
an explicit `Regexp` wins; with no choices the rule is `allReg`; in menu
mode it is `numReg`; otherwise the anchored alternation of the
`QuoteMeta`-escaped choices, case-insensitive under `IgnoreCase`. -/
def Prompter.regexpRule (p : Prompter) : GoRegexp :=
  match p.Regexp with
  | some r => r
  | none =>
    if p.Choices.isEmpty then allReg
    else if p.IsMenu then numReg
    else
      { source := (if p.IgnoreCase then "(?i)" else "") ++ "\\A(?:" ++
          String.intercalate "|" (p.Choices.map quoteMeta) ++ ")\\z"
        matchString := choiceMatch p.IgnoreCase p.Choices }

/-- Embeds `func (p *Prompter) inputIsValid(input string) bool`:
non-menu mode returns the rule match; menu mode additionally requires the
input to parse via `Atoi` and the value to be at most `len(Choices) + 1`. -/
def Prompter.inputIsValid (p : Prompter) (input : String) : Bool :=
  let rx := (p.regexpRule).matchString input
  if !p.IsMenu || !rx then rx
  else
    match Atoi input with
    | none => false
    | some it => if it > (p.Choices.length : Int) + 1 then false else true

/-- Embeds `func (p *Prompter) errorMsg() string`.  `choicesInit` models
`p.Choices[:len(p.Choices)-1]` and `lastChoice` models
`p.Choices[len(p.Choices)-1]` (both used only when `Choices` is nonempty). -/
def Prompter.errorMsg (p : Prompter) : String :=
  match p.Regexp with
  | some r => "# Answer should match /" ++ r.source ++ "/"
  | none =>
    if !p.Choices.isEmpty && !p.IsMenu then
      match p.Choices with
      | [c] => "# Enter `" ++ c ++ "`"
      | cs =>
        let choicesInit := cs.dropLast.map (fun v => "`" ++ v ++ "`")
        let lastChoice := (cs.getLast?).getD ""
        "# Enter " ++ String.intercalate ", " choicesInit ++ " or `" ++ lastChoice ++ "`"
    else ""

/-- The ambient process state consulted by `skip()`. -/
structure Env where
  goPrompterUseDefault : String
  stdinIsTTY : Bool
  stdoutIsTTY : Bool

/-- Embeds `func skip() bool`: true when `GO_PROMPTER_USE_DEFAULT` is non-empty,
or when stdin is not a terminal or stdout is not a terminal. -/
def skip (e : Env) : Bool :=
  if e.goPrompterUseDefault != "" then true
  else !e.stdinIsTTY || !e.stdoutIsTTY

/-- Embeds `strings.TrimRight(s, "\r\n")`: strip trailing CR and LF characters. -/
def trimRightCRLF (s : String) : String :=
  String.mk (s.data.reverse.dropWhile (fun c => c == '\r' || c == '\n')).reverse

/-- The empty-input fallback inside `Prompt()`: an empty line becomes
`strconv.Itoa(p.DefaultMenuItem)` in menu mode and `p.Default` otherwise. -/
def Prompter.fallback (p : Prompter) (input : String) : String :=
  if input == "" then
    if p.IsMenu then toString p.DefaultMenuItem else p.Default
  else input

/-- One read attempt in `Prompt()`: the next pending line, or the empty
string at end-of-stream (the scanner and the password reader both yield the
empty string there).  The echoing reader trims trailing CR/LF
(`strings.TrimRight(scanner.Text(), "\r\n")`); the `NoEcho` reader does
not. -/
def readRaw (p : Prompter) (lines : List String) : String :=
  match lines with
  | [] => ""
  | l :: _ => if p.NoEcho then l else trimRightCRLF l

/-- The validate-or-retry tail of `Prompt()`: a valid input is returned
(one read was performed); otherwise the error message is printed and the
result is whatever the recursive `p.Prompt()` call produces, with this
step's read added to the count. -/
def promptStep (p : Prompter) (input : String) (retry : Option (String × Nat)) :
    Option (String × Nat) :=
  if p.inputIsValid input then some (input, 1)
  else
    match retry with
    | some (ans, n) => some (ans, n + 1)
    | none => none

/-- Embeds `func (p *Prompter) Prompt() string` over a list of pending
input lines with recursion fuel.  Returns `some (answer, reads)` where
`reads` counts the read attempts performed, or `none` when the fuel runs
out before an answer is accepted.  The auto-accept branch returns
`p.Default` with zero reads; otherwise one line is read (`readRaw`), the
empty-input fallback is applied and the result is validated
(`promptStep`). -/
def promptLoop (p : Prompter) (e : Env) : Nat → List String → Option (String × Nat)
  | 0, _ => none
  | fuel + 1, lines =>
    if p.UseDefault || skip e then some (p.Default, 0)
    else promptStep p (p.fallback (readRaw p lines)) (promptLoop p e fuel lines.tail)

end PrompterGo

namespace PrompterGo

/-! ### Concrete instances used by the claims -/

/-- A menu prompter with three choices and default item 2. -/
def menu3 : Prompter := { Choices := ["a", "b", "c"], DefaultMenuItem := 2, IsMenu := true }

/-- A menu prompter with a single choice (accepted bound is 2). -/
def menu1 : Prompter := { Choices := ["a"], IsMenu := true }

/-- A menu prompter with three choices and no default item. -/
def menu0 : Prompter := { Choices := ["a", "b", "c"], IsMenu := true }

/-- A yes/no prompter with case-insensitive matching. -/
def ynP : Prompter := { Choices := ["y", "n"], IgnoreCase := true }

/-- A non-menu prompter with three choices. -/
def abcP : Prompter := { Choices := ["a", "b", "c"] }

/-- A prompter with no choices, no pattern and empty default. -/
def emptyP : Prompter := {}

/-- A prompter with only a default answer configured. -/
def plainP : Prompter := { Default := "d" }

/-- A prompter whose default answer fails its own choice rule. -/
def maybeP : Prompter := { Choices := ["y", "n"], Default := "maybe", UseDefault := true }

/-- A menu prompter with no choices configured. -/
def menuNoChoice : Prompter := { IsMenu := true }

/-- The Go regexp `\Ax\z`: matches exactly the whole string `x`. -/
def xReg : GoRegexp := { source := "\\Ax\\z", matchString := fun s => s == "x" }

/-- A menu prompter carrying both choices and an explicit pattern. -/
def xMenuP : Prompter := { Choices := ["a", "b", "c"], Regexp := some xReg, IsMenu := true }

/-- A non-menu prompter carrying both choices and an explicit pattern. -/
def xP : Prompter := { Choices := ["a", "b", "c"], Regexp := some xReg }

/-- A prompter with only an explicit pattern configured. -/
def patP : Prompter := { Regexp := some numReg }

/-- Both stdin and stdout are terminals, no override variable. -/
def interactiveEnv : Env := { goPrompterUseDefault := "", stdinIsTTY := true, stdoutIsTTY := true }

/-- stdin is a terminal but stdout is not; no override variable. -/
def envHalf : Env := { goPrompterUseDefault := "", stdinIsTTY := true, stdoutIsTTY := false }

/-- The override environment variable is set; both descriptors are terminals. -/
def envFlag : Env := { goPrompterUseDefault := "1", stdinIsTTY := true, stdoutIsTTY := true }

/-! ### Helper lemmas -/

/-- In menu mode with choices and no explicit pattern, the derived rule is `numReg`. -/
theorem regexpRule_menu (p : Prompter) (hr : p.Regexp = none) (hc : p.Choices ≠ [])
    (hm : p.IsMenu = true) : p.regexpRule = numReg := by
  obtain ⟨c, cs, hcons⟩ := List.exists_cons_of_ne_nil hc
  unfold Prompter.regexpRule
  rw [hr, hcons]
  simp [hm]

/-- Outside menu mode with choices and no explicit pattern, the derived rule
matches by literal (possibly case-folded) comparison with the choices. -/
theorem regexpRule_choices (p : Prompter) (hr : p.Regexp = none) (hc : p.Choices ≠ [])
    (hm : p.IsMenu = false) :
    (p.regexpRule).matchString = choiceMatch p.IgnoreCase p.Choices := by
  obtain ⟨c, cs, hcons⟩ := List.exists_cons_of_ne_nil hc
  unfold Prompter.regexpRule
  rw [hr, hcons]
  simp [hm]

/-- Menu-mode validation, unfolded: the `numReg` match, together with a
successful `Atoi` parse bounded by `len(Choices) + 1`. -/
theorem inputIsValid_menu_iff (p : Prompter) (s : String) (hm : p.IsMenu = true)
    (hr : p.Regexp = none) (hc : p.Choices ≠ []) :
    p.inputIsValid s = true ↔
      numRegMatch s = true ∧
        ∃ n : Int, Atoi s = some n ∧ n ≤ (p.Choices.length : Int) + 1 := by
  have hrule : p.regexpRule = numReg := regexpRule_menu p hr hc hm
  rw [Prompter.inputIsValid, hrule, hm]
  cases hrx : numRegMatch s with
  | false => simp [numReg, hrx]
  | true =>
    cases hA : Atoi s with
    | none => simp [numReg, hrx, hA]
    | some it =>
      constructor
      · intro h
        refine ⟨rfl, it, rfl, ?_⟩
        by_contra hgt
        rw [Int.not_le] at hgt
        simp [numReg, hrx, hgt] at h
      · rintro ⟨-, n, hn, hle⟩
        injection hn with hn
        subst hn
        simp [numReg, hrx, Int.not_lt.mpr hle]

/-- Outside menu mode, validation is exactly the rule match. -/
theorem inputIsValid_nonmenu (p : Prompter) (s : String) (hm : p.IsMenu = false) :
    p.inputIsValid s = (p.regexpRule).matchString s := by
  rw [Prompter.inputIsValid, hm]
  simp

/-- Inversion for `promptStep`: a produced answer is either this step's
valid input, or an answer of the retry with the read count bumped. -/
theorem promptStep_eq_some (p : Prompter) (input : String) (retry : Option (String × Nat))
    (ans : String) (n : Nat) (hres : promptStep p input retry = some (ans, n)) :
    (ans = input ∧ p.inputIsValid input = true ∧ n = 1) ∨
      (p.inputIsValid input = false ∧ ∃ m : Nat, retry = some (ans, m) ∧ n = m + 1) := by
  rw [promptStep.eq_def] at hres
  split at hres
  · rename_i hv
    injection hres with hres
    obtain ⟨h1, h2⟩ := Prod.mk.injEq .. ▸ hres
    exact Or.inl ⟨h1.symm, hv, h2.symm⟩
  · rename_i hv
    cases retry with
    | none => exact absurd hres (by simp)
    | some r =>
      obtain ⟨a, m⟩ := r
      injection hres with hres
      obtain ⟨h1, h2⟩ := Prod.mk.injEq .. ▸ hres
      exact Or.inr ⟨Bool.not_eq_true _ ▸ hv, m, h1 ▸ rfl, h2.symm⟩

/-- On the interactive path, every answer `promptLoop` accepts satisfies
`inputIsValid`. -/
theorem promptLoop_accepted_valid (p : Prompter) (e : Env)
    (h : (p.UseDefault || skip e) = false) :
    ∀ (fuel : Nat) (lines : List String) (ans : String) (n : Nat),
      promptLoop p e fuel lines = some (ans, n) → p.inputIsValid ans = true := by
  intro fuel
  induction fuel with
  | zero => intro lines ans n hres; simp [promptLoop] at hres
  | succ m ih =>
    intro lines ans n hres
    simp only [promptLoop, h, Bool.false_eq_true, if_false] at hres
    rcases promptStep_eq_some p _ _ ans n hres with ⟨rfl, hv, -⟩ | ⟨-, m', hrec, -⟩
    · exact hv
    · exact ih lines.tail ans m' hrec

/-! ### Claims -/

/-- C1: In menu mode (with choices and no explicit pattern), an input is
accepted by the validation check iff it matches the `numReg` rule, parses
via `Atoi`, and the parsed integer is at most `len(Choices) + 1`; for
`menu3` (3 choices, default menu item 2), input `4` is accepted while
inputs `5` and `0` are rejected. -/
theorem claim_C1 :
    (∀ (p : Prompter) (s : String), p.IsMenu = true → p.Regexp = none → p.Choices ≠ [] →
      (p.inputIsValid s = true ↔
        numRegMatch s = true ∧
          ∃ n : Int, Atoi s = some n ∧ n ≤ (p.Choices.length : Int) + 1)) ∧
    menu3.inputIsValid "4" = true ∧
    menu3.inputIsValid "5" = false ∧
    menu3.inputIsValid "0" = false :=
  ⟨fun p s hm hr hc => inputIsValid_menu_iff p s hm hr hc, by decide, by decide, by decide⟩

/-- C1 witness: the general equivalence applied to `menu3` and input `04`. -/
theorem claim_C1_witness :
    menu3.IsMenu = true ∧ menu3.Regexp = none ∧ menu3.Choices ≠ [] ∧
      (menu3.inputIsValid "04" = true ↔
        numRegMatch "04" = true ∧
          ∃ n : Int, Atoi "04" = some n ∧ n ≤ (menu3.Choices.length : Int) + 1) :=
  ⟨rfl, rfl, by decide, claim_C1.1 menu3 "04" rfl rfl (by decide)⟩

/-- C3 counterexample: in the one-choice menu `menu1` the accepted bound is
2, so a canonical 1-based index string would be `1` or `2`; yet the string
`00` — which is neither, carries a leading zero and denotes 0 — passes
validation. -/
theorem claim_C3_counterexample :
    menu1.inputIsValid "00" = true ∧ Atoi "00" = some 0 ∧
      "00" ≠ "1" ∧ "00" ≠ "2" := by
  refine ⟨by decide, by decide, by decide, by decide⟩

/-- C3 (amended): in menu mode every accepted answer parses via `Atoi` to an
integer at most `len(Choices) + 1`, but it need not be the canonical decimal
form of an index ≥ 1: strings with leading zeros, a sign, or value ≤ 0 can
be accepted. -/
theorem claim_C3 :
    ∀ (p : Prompter) (s : String), p.IsMenu = true → p.Regexp = none → p.Choices ≠ [] →
      p.inputIsValid s = true →
      ∃ n : Int, Atoi s = some n ∧ n ≤ (p.Choices.length : Int) + 1 := by
  intro p s hm hr hc hv
  exact ((inputIsValid_menu_iff p s hm hr hc).mp hv).2

/-- C3 witness: the amended claim applied to `menu3` and the accepted
input `4`. -/
theorem claim_C3_witness :
    ∃ n : Int, Atoi "4" = some n ∧ n ≤ (menu3.Choices.length : Int) + 1 :=
  claim_C3 menu3 "4" rfl rfl (by decide) (by decide)

/-- C6: whenever the read line is empty, the value that is validated and
potentially returned is substituted before validation — in menu mode the
decimal string of `DefaultMenuItem`, otherwise `Default`; a non-empty line
is never substituted. -/
theorem claim_C6 :
    ∀ p : Prompter,
      (p.IsMenu = true → p.fallback "" = toString p.DefaultMenuItem) ∧
      (p.IsMenu = false → p.fallback "" = p.Default) ∧
      (∀ s : String, s ≠ "" → p.fallback s = s) := by
  intro p
  refine ⟨fun hm => by simp [Prompter.fallback, hm], fun hm => by simp [Prompter.fallback, hm],
    fun s hs => by simp [Prompter.fallback, hs]⟩

/-- C6 witness: the substitutions at `menu3` (menu mode) and `ynP`
(non-menu), and non-substitution of the non-empty line `x`. -/
theorem claim_C6_witness :
    menu3.fallback "" = toString menu3.DefaultMenuItem ∧
    ynP.fallback "" = ynP.Default ∧
    ynP.fallback "x" = "x" :=
  ⟨(claim_C6 menu3).1 rfl, (claim_C6 ynP).2.1 rfl, (claim_C6 ynP).2.2 "x" (by decide)⟩

/-- C9: the auto-accept path bypasses validation — with `UseDefault` set,
`Prompt()` returns `Default` with zero reads, even when `Default` fails the
validation rule (`maybeP` has choices y/n and default `maybe`). -/
theorem claim_C9 :
    (∀ (p : Prompter) (e : Env) (fuel : Nat) (lines : List String), p.UseDefault = true →
      promptLoop p e (fuel + 1) lines = some (p.Default, 0)) ∧
    maybeP.inputIsValid "maybe" = false ∧
    promptLoop maybeP interactiveEnv 1 ["y"] = some ("maybe", 0) :=
  ⟨fun p e fuel lines h => by simp [promptLoop, h], by decide, by decide⟩

/-- C9 witness: the general auto-accept equation applied to `maybeP`. -/
theorem claim_C9_witness :
    promptLoop maybeP interactiveEnv (0 + 1) ["y"] = some (maybeP.Default, 0) :=
  claim_C9.1 maybeP interactiveEnv 0 ["y"] rfl

/-- The auto-accept condition as the spec words it: `UseDefault` set, or the
override environment variable non-empty, or the process non-interactive in
the sense that NEITHER stdin NOR stdout is an interactive terminal.  Stated
from the spec's words for comparison with the code's `skip`. -/
def specAutoAccept (p : Prompter) (e : Env) : Bool :=
  p.UseDefault || (e.goPrompterUseDefault != "") || (!e.stdinIsTTY && !e.stdoutIsTTY)

/-- C2 counterexample: in `envHalf` stdin is a terminal and stdout is not,
so the spec's condition ("neither is a terminal") is false — yet the code
auto-accepts and returns `Default` (`d`) with zero reads instead of reading
the pending line `x`. -/
theorem claim_C2_counterexample :
    specAutoAccept plainP envHalf = false ∧
    promptLoop plainP envHalf 1 ["x"] = some (plainP.Default, 0) ∧
    plainP.Default ≠ "x" :=
  ⟨by decide, by decide, by decide⟩

/-- C2 (amended): `Prompt()` returns `Default` with zero reads exactly when
`UseDefault` is set or `skip` holds — i.e. the override variable is
non-empty, or AT LEAST ONE of stdin/stdout is not an interactive terminal;
otherwise every produced answer involved at least one read attempt. -/
theorem claim_C2 :
    (∀ (p : Prompter) (e : Env), (p.UseDefault || skip e) = true →
      ∀ (fuel : Nat) (lines : List String),
        promptLoop p e (fuel + 1) lines = some (p.Default, 0)) ∧
    (∀ (p : Prompter) (e : Env), (p.UseDefault || skip e) = false →
      ∀ (fuel : Nat) (lines : List String) (ans : String) (n : Nat),
        promptLoop p e fuel lines = some (ans, n) → 1 ≤ n) := by
  constructor
  · intro p e h fuel lines
    simp [promptLoop, h]
  · intro p e h fuel lines ans n hres
    cases fuel with
    | zero => simp [promptLoop] at hres
    | succ m =>
      simp only [promptLoop, h, Bool.false_eq_true, if_false] at hres
      rcases promptStep_eq_some p _ _ ans n hres with ⟨-, -, rfl⟩ | ⟨-, m', -, rfl⟩
      · exact Nat.le_refl 1
      · exact Nat.le_add_left 1 m'

/-- C2 witness: with the override variable set (`envFlag`), `plainP`
auto-accepts `d` with zero reads; interactively (`interactiveEnv`), the
accepted run of `ynP` on line `y` performed a read. -/
theorem claim_C2_witness :
    promptLoop plainP envFlag (0 + 1) ["x"] = some (plainP.Default, 0) ∧
    (1 : Nat) ≤ 1 :=
  ⟨claim_C2.1 plainP envFlag (by decide) 0 ["x"],
    claim_C2.2 ynP interactiveEnv (by decide) 1 ["y"] "y" 1 (by decide)⟩

/-- C4 counterexample: `xMenuP` carries both choices and the explicit
pattern `\Ax\z`; input `x` matches the pattern, yet validation rejects it
because the menu-mode integer parse still applies. -/
theorem claim_C4_counterexample :
    xMenuP.Regexp = some xReg ∧ xReg.matchString "x" = true ∧
      xMenuP.inputIsValid "x" = false :=
  ⟨rfl, by decide, by decide⟩

/-- C4 (amended): outside menu mode an explicit pattern alone governs
acceptance — validation equals the pattern match and the choice list has no
effect; in menu mode the pattern replaces the choice-derived rule but the
integer-parse and index-bound checks still apply. -/
theorem claim_C4 :
    ∀ (p : Prompter) (r : GoRegexp) (s : String), p.Regexp = some r → p.IsMenu = false →
      p.inputIsValid s = r.matchString s := by
  intro p r s hr hm
  have hrule : p.regexpRule = r := by
    unfold Prompter.regexpRule
    rw [hr]
  rw [Prompter.inputIsValid, hrule, hm]
  simp

/-- C4 witness: the amended claim applied to `xP` (non-menu, choices a/b/c,
pattern `\Ax\z`) and the off-list input `x`, which is accepted. -/
theorem claim_C4_witness :
    xP.inputIsValid "x" = xReg.matchString "x" ∧ xReg.matchString "x" = true :=
  ⟨claim_C4 xP xReg "x" rfl rfl, by decide⟩

/-- C5: for a non-menu prompter with choices and no pattern, an input is
accepted iff the whole input equals one of the choices (case-folded when
`IgnoreCase`); `ynP` accepts `Y` and `Prompt()` returns the literal `Y`. -/
theorem claim_C5 :
    (∀ (p : Prompter) (s : String), p.IsMenu = false → p.Regexp = none → p.Choices ≠ [] →
      (p.inputIsValid s = true ↔
        ∃ c ∈ p.Choices, (if p.IgnoreCase then strFold c == strFold s else c == s) = true)) ∧
    ynP.inputIsValid "Y" = true ∧
    promptLoop ynP interactiveEnv 1 ["Y"] = some ("Y", 1) := by
  refine ⟨fun p s hm hr hc => ?_, by decide, by decide⟩
  rw [inputIsValid_nonmenu p s hm, regexpRule_choices p hr hc hm, choiceMatch]
  simp [List.any_eq_true]

/-- C5 witness: the general equivalence applied to `ynP` and input `Y`. -/
theorem claim_C5_witness :
    ynP.IsMenu = false ∧ ynP.Regexp = none ∧ ynP.Choices ≠ [] ∧
      (ynP.inputIsValid "Y" = true ↔
        ∃ c ∈ ynP.Choices,
          (if ynP.IgnoreCase then strFold c == strFold "Y" else c == "Y") = true) :=
  ⟨rfl, rfl, by decide, claim_C5.1 ynP "Y" rfl rfl (by decide)⟩

/-- C7 counterexample: `menuNoChoice` has no choices and no pattern, so its
rule accepts everything; yet the read line `abc` is not accepted (menu mode
still demands an integer parse), contradicting "any read line is returned
as-is". -/
theorem claim_C7_counterexample :
    menuNoChoice.Choices = [] ∧ menuNoChoice.Regexp = none ∧
    (menuNoChoice.regexpRule).matchString "abc" = true ∧
    menuNoChoice.inputIsValid "abc" = false :=
  ⟨rfl, rfl, by decide, by decide⟩

/-- C7 (amended): with no choices and no pattern the derived rule accepts
every string; for NON-MENU prompters validation therefore accepts every
string, any read line is returned as-is, and with an empty `Default` an
empty read line yields the empty string (in menu mode the integer-parse
check still applies on top of the rule). -/
theorem claim_C7 :
    (∀ (p : Prompter) (s : String), p.Choices = [] → p.Regexp = none →
      (p.regexpRule).matchString s = true) ∧
    (∀ (p : Prompter) (s : String), p.Choices = [] → p.Regexp = none → p.IsMenu = false →
      p.inputIsValid s = true) ∧
    promptLoop emptyP interactiveEnv 1 [""] = some ("", 1) := by
  have hrule : ∀ p : Prompter, p.Choices = [] → p.Regexp = none → p.regexpRule = allReg := by
    intro p hc hr
    unfold Prompter.regexpRule
    rw [hr, hc]
    simp
  refine ⟨fun p s hc hr => ?_, fun p s hc hr hm => ?_, by decide⟩
  · rw [hrule p hc hr]
    rfl
  · rw [inputIsValid_nonmenu p s hm, hrule p hc hr]
    rfl

/-- C7 witness: the amended claim applied to `emptyP` and an arbitrary
non-empty input. -/
theorem claim_C7_witness :
    (emptyP.regexpRule).matchString "anything at all" = true ∧
    emptyP.inputIsValid "anything at all" = true :=
  ⟨claim_C7.1 emptyP "anything at all" rfl rfl,
    claim_C7.2.1 emptyP "anything at all" rfl rfl rfl⟩

/-- C8: `errorMsg` is exactly the pattern message when a pattern is set;
otherwise, for non-menu choice prompters, the single-choice message or the
backquoted list with all but the last comma-joined and the last joined by
"or" (`abcP` gives the exact example string); otherwise the empty string. -/
theorem claim_C8 :
    (∀ (p : Prompter) (r : GoRegexp), p.Regexp = some r →
      p.errorMsg = "# Answer should match /" ++ r.source ++ "/") ∧
    (∀ (p : Prompter) (c : String), p.Regexp = none → p.IsMenu = false → p.Choices = [c] →
      p.errorMsg = "# Enter `" ++ c ++ "`") ∧
    (∀ (p : Prompter) (cs : List String) (lastC : String), p.Regexp = none →
      p.IsMenu = false → p.Choices = cs ++ [lastC] → cs ≠ [] →
      p.errorMsg = "# Enter " ++
        String.intercalate ", " (cs.map (fun v => "`" ++ v ++ "`")) ++
        " or `" ++ lastC ++ "`") ∧
    abcP.errorMsg = "# Enter `a`, `b` or `c`" ∧
    (∀ p : Prompter, p.Regexp = none → p.IsMenu = true ∨ p.Choices = [] →
      p.errorMsg = "") := by
  refine ⟨fun p r hr => ?_, fun p c hr hm hc => ?_, fun p cs lastC hr hm hc hne => ?_,
    by decide, fun p hr hdeg => ?_⟩
  · rw [Prompter.errorMsg.eq_def, hr]
  · rw [Prompter.errorMsg.eq_def, hr, hc]
    simp [hm]
  · obtain ⟨c₀, cs₀, rfl⟩ := List.exists_cons_of_ne_nil hne
    rw [Prompter.errorMsg.eq_def, hr, hc]
    cases cs₀ with
    | nil => simp [hm, List.intercalate]
    | cons c₁ cs₁ =>
      have hdl : ((c₀ :: c₁ :: cs₁) ++ [lastC]).dropLast = c₀ :: c₁ :: cs₁ :=
        List.dropLast_concat
      have hgl : ((c₀ :: c₁ :: cs₁) ++ [lastC]).getLast? = some lastC :=
        List.getLast?_concat _
      simp only [List.cons_append] at hdl hgl ⊢
      simp only [hm, hdl, hgl]
      simp
  · rcases hdeg with hm | hc
    · rw [Prompter.errorMsg.eq_def, hr]
      simp [hm]
    · rw [Prompter.errorMsg.eq_def, hr, hc]
      simp

/-- C8 witness: the pattern case applied to `patP`, the multi-choice case
applied to `abcP`, and the empty case applied to `menu3`. -/
theorem claim_C8_witness :
    patP.errorMsg = "# Answer should match /" ++ numReg.source ++ "/" ∧
    abcP.errorMsg = "# Enter " ++
      String.intercalate ", " (["a", "b"].map (fun v => "`" ++ v ++ "`")) ++
      " or `" ++ "c" ++ "`" ∧
    menu3.errorMsg = "" :=
  ⟨claim_C8.1 patP numReg rfl,
    claim_C8.2.2.1 abcP ["a", "b"] "c" rfl rfl rfl (by decide),
    claim_C8.2.2.2.2 menu3 rfl (Or.inl rfl)⟩

/-- C10: in a choice menu with `DefaultMenuItem = 0`, an empty read line is
substituted with the string `0`, which fails the numeric rule, so it is
never accepted: an empty first line makes the loop recurse on the remaining
input (with the read counted), and on the interactive path no accepted
answer is ever the string `0`. -/
theorem claim_C10 :
    ∀ p : Prompter, p.IsMenu = true → p.DefaultMenuItem = 0 → p.Regexp = none →
      p.Choices ≠ [] →
      p.fallback "" = "0" ∧
      p.inputIsValid "0" = false ∧
      (∀ (e : Env) (fuel : Nat) (ls : List String), (p.UseDefault || skip e) = false →
        promptLoop p e (fuel + 1) ("" :: ls) =
          promptStep p "0" (promptLoop p e fuel ls)) ∧
      (∀ (e : Env) (fuel : Nat) (lines : List String) (n : Nat),
        (p.UseDefault || skip e) = false →
        promptLoop p e fuel lines ≠ some ("0", n)) := by
  intro p hm h0 hr hc
  have hrule : p.regexpRule = numReg := regexpRule_menu p hr hc hm
  have hfall : p.fallback "" = "0" := by
    simp [Prompter.fallback, hm, h0]
    decide
  have hvalid : p.inputIsValid "0" = false := by
    rw [Prompter.inputIsValid, hrule, hm]
    simp [numReg, (by decide : numRegMatch "0" = false)]
  refine ⟨hfall, hvalid, fun e fuel ls hcond => ?_, fun e fuel lines n hcond hres => ?_⟩
  · have hraw : readRaw p ("" :: ls) = "" := by
      rw [readRaw]
      cases hE : p.NoEcho
      · simp only [Bool.false_eq_true, if_false]
        decide
      · simp
    simp only [promptLoop, hcond, Bool.false_eq_true, if_false, hraw, hfall, List.tail_cons]
  · have := promptLoop_accepted_valid p e hcond fuel lines "0" n hres
    rw [hvalid] at this
    exact Bool.false_ne_true this

/-- C10 witness: the components applied to `menu0` (three choices, no
default menu item) in the interactive environment. -/
theorem claim_C10_witness :
    menu0.fallback "" = "0" ∧
    menu0.inputIsValid "0" = false ∧
    promptLoop menu0 interactiveEnv (0 + 1) ("" :: []) =
      promptStep menu0 "0" (promptLoop menu0 interactiveEnv 0 []) ∧
    promptLoop menu0 interactiveEnv 1 ["2"] ≠ some ("0", 1) :=
  ⟨(claim_C10 menu0 rfl rfl rfl (by decide)).1,
    (claim_C10 menu0 rfl rfl rfl (by decide)).2.1,
    (claim_C10 menu0 rfl rfl rfl (by decide)).2.2.1 interactiveEnv 0 [] (by decide),
    (claim_C10 menu0 rfl rfl rfl (by decide)).2.2.2 interactiveEnv 1 ["2"] 1 (by decide)⟩
